import Mathlib

/-!
Shallow embedding of the analytics core of `telegram-bot-analytics`:
`src/data_analyzer.py` (DataAnalyzer.analyze, DataAnalyzer.get_requests_for_llm)
and `src/llm_processor.py` (LLMProcessor.analyze_request,
LLMProcessor.analyze_multiple_requests), together with the `enabled`
predicate of `config.py` (LLMConfig.enabled).

Python dynamic values that flow through the analyzed code are modelled by
the `Cell` type (string, integer, or null cell); machine-level details that
the code never relies on (arbitrary objects in cells) are out of scope.
Side effects are made explicit: log output becomes a `LogSignal` value,
transport traffic becomes a call counter, and in-place mutation of the
request dictionaries becomes an explicitly returned post-state list.
-/

set_option autoImplicit false

namespace TgAnalytics

/-- A spreadsheet cell as the Python code sees it: a string, an integer
(Google Sheets may deliver numbers), or `None`/missing. -/
inductive Cell where
  | cstr (s : String)
  | cint (n : Int)
  | cnone
  deriving DecidableEq, Repr, Inhabited

/-- Python truthiness of a cell (`if category:` / `if row[0]:`):
empty string, zero and `None` are falsy. -/
def Cell.truthy : Cell → Bool
  | .cstr s => s ≠ ""
  | .cint n => n ≠ 0
  | .cnone => false

/-- Python `str(...)` on a cell value. -/
def Cell.pyStr : Cell → String
  | .cstr s => s
  | .cint n => toString n
  | .cnone => "None"

/-- Python `str.strip()` (no argument): drop whitespace from both ends.
Defined by structural recursion over the character list so that concrete
instances reduce inside the kernel. -/
def pyStrip (s : String) : String :=
  ⟨((s.data.dropWhile Char.isWhitespace).reverse.dropWhile Char.isWhitespace).reverse⟩

/-- Python `str.lower()` on the ASCII range (the only range the code's
priority values use). -/
def pyLower (s : String) : String :=
  ⟨s.data.map Char.toLower⟩

/-- The category-cleaning in `DataAnalyzer.analyze` lines 67-71:
`category.strip()` when the cell is a string, else
`str(category).strip() if category else ""`. -/
def cleanCategory : Cell → String
  | .cstr s => pyStrip s
  | c => if c.truthy then pyStrip c.pyStr else ""

/-- The per-value cleaning loop of `get_requests_for_llm` lines 145-150:
strings are stripped, `None` becomes the empty string, other values are
left as they are. -/
def cleanCell : Cell → Cell
  | .cstr s => .cstr (pyStrip s)
  | .cnone => .cstr ""
  | c => c

/-- Category extraction of `DataAnalyzer.analyze` lines 65-78, applied to
`data[1:]`: a row contributes its cleaned category cell
`row[category_column - 1]` when `len(row) >= category_column` and the
cleaned value is non-empty; shorter rows and empty categories are skipped.
Faithful for `category_column ≥ 1`, the range enforced by
`GoogleSheetsConfig.category_column` (`ge=1`). -/
def extractCategories (categoryColumn : Nat) (rows : List (List Cell)) : List String :=
  rows.filterMap fun row =>
    if categoryColumn ≤ row.length then
      let category := cleanCategory (row.getD (categoryColumn - 1) .cnone)
      if category ≠ "" then some category else none
    else
      none

/-- One step of `collections.Counter`: increment the count of `c` if the
key is present, else append `(c, 1)` at the end — Python dicts preserve
first-insertion order, which is what the tie-break below relies on. -/
def countInsert (acc : List (String × Nat)) (c : String) : List (String × Nat) :=
  match acc with
  | [] => [(c, 1)]
  | (k, n) :: rest =>
      if k = c then (k, n + 1) :: rest else (k, n) :: countInsert rest c

/-- `collections.Counter(categories)` as an insertion-ordered association
list. -/
def counter (categories : List String) : List (String × Nat) :=
  categories.foldl countInsert []

/-- One comparison step of Python `max(items, key=count)`: a later entry
replaces the champion only on a strictly larger count. -/
def pickBest (best q : String × Nat) : String × Nat :=
  if best.2 < q.2 then q else best

/-- `Counter.most_common(1)[0]`: CPython reduces `nlargest(1, items, key=count)`
to `max(items, key=count)`, which keeps the first maximal element, so a
later key only replaces the champion on a strictly larger count. -/
def mostCommon (l : List (String × Nat)) : String × Nat :=
  match l with
  | [] => ("", 0)
  | p :: ps => ps.foldl pickBest p

/-- Sum of the counts of an insertion-ordered counter. -/
def sumSnd (l : List (String × Nat)) : Nat :=
  (l.map Prod.snd).sum

/-- Maximum of the counts of an insertion-ordered counter (0 when empty). -/
def maxSnd (l : List (String × Nat)) : Nat :=
  l.foldl (fun m q => max m q.2) 0

/-- `AnalysisResult` of `data_analyzer.py` (the aggregate-statistics value,
not the LLM result). `category_counts` is the insertion-ordered content of
`dict(Counter(...))`. -/
structure AnalysisResult where
  total_requests : Nat
  total_rows : Nat
  category_counts : List (String × Nat)
  most_common_category : String
  most_common_count : Nat
  raw_data : List (List Cell)
  deriving DecidableEq, Repr, Inhabited

/-- The zero-valued result built at `data_analyzer.py` lines 52-59 and 87-94. -/
def emptyResult (data : List (List Cell)) : AnalysisResult :=
  { total_requests := 0
    total_rows := data.length
    category_counts := []
    most_common_category := ""
    most_common_count := 0
    raw_data := data }

/-- `DataAnalyzer.analyze` (`data_analyzer.py` lines 41-114). -/
def analyze (categoryColumn : Nat) (data : List (List Cell)) : AnalysisResult :=
  if data.length ≤ 1 then emptyResult data
  else
    let categories := extractCategories categoryColumn data.tail
    if categories.isEmpty then emptyResult data
    else
      let category_counts := counter categories
      let mc := mostCommon category_counts
      { total_requests := categories.length
        total_rows := data.length
        category_counts := category_counts
        most_common_category := mc.1
        most_common_count := mc.2
        raw_data := data }

/-- `LLMAnalysis` of `llm_processor.py`; `processing_time` is wall-clock
seconds, modelled as an abstract non-negative tick count. -/
structure LLMAnalysis where
  priority : String
  summary : String
  recommendation : String
  raw_response : String
  processing_time : Nat
  deriving DecidableEq, Repr, Inhabited

/-- One request dictionary built by `get_requests_for_llm` lines 136-143,
plus the `llm_analysis` key that `analyze_multiple_requests` later writes
into it (absent = `none` before processing). -/
structure RequestData where
  row_number : Nat
  id : Cell
  date : Cell
  category : Cell
  choice : Cell
  description : Cell
  llm_analysis : Option LLMAnalysis := none
  deriving DecidableEq, Repr, Inhabited

/-- Body of the loop of `get_requests_for_llm` lines 135-154, with `i` the
1-based sheet row number (`enumerate(data[1:], start=2)`): build the
dictionary positionally (A=id, B=date, C=category, D=choice, E=description),
clean every value, and keep the record only if the cleaned description is
truthy. -/
def buildRequests (i : Nat) (rows : List (List Cell)) : List RequestData :=
  match rows with
  | [] => []
  | row :: rest =>
      let rd : RequestData :=
        { row_number := i
          id := cleanCell (if 0 < row.length ∧ (row.getD 0 .cnone).truthy
                           then row.getD 0 .cnone else .cstr (toString i))
          date := cleanCell (if 1 < row.length then row.getD 1 .cnone else .cstr "")
          category := cleanCell (if 2 < row.length then row.getD 2 .cnone else .cstr "")
          choice := cleanCell (if 3 < row.length then row.getD 3 .cnone else .cstr "")
          description := cleanCell (if 4 < row.length then row.getD 4 .cnone else .cstr "")
          llm_analysis := none }
      if rd.description.truthy then rd :: buildRequests (i + 1) rest
      else buildRequests (i + 1) rest

/-- `DataAnalyzer.get_requests_for_llm` (`data_analyzer.py` lines 116-163). -/
def get_requests_for_llm (data : List (List Cell)) : List RequestData :=
  if data.length ≤ 1 then []
  else buildRequests 2 data.tail

/-- Python substring containment `pat in s`, via `splitOn`: `pat` occurs in
`s` iff splitting on it produces more than one piece. -/
def containsSub (s pat : String) : Bool :=
  (s.splitOn pat).length ≥ 2

/-- `LLMConfig.enabled` (`config.py` lines 59-62):
`bool(self.api_key and "ваш_api_ключ" not in self.api_key)`. -/
def LLMConfig.enabled (api_key : String) : Bool :=
  api_key ≠ "" && !containsSub api_key "ваш_api_ключ"

/-- Observable state of an `LLMProcessor`: `_enabled` and whether
`self.client` is a live handle (`client is not None`). -/
structure ClientState where
  enabled : Bool
  clientOk : Bool
  deriving DecidableEq, Repr, Inhabited

/-- `LLMProcessor.__init__` (`llm_processor.py` lines 42-64): when the
config is disabled the client is `None` and `_enabled` is false; when
enabled, the `OpenAI(...)` construction may still fail (modelled by
`initOk`), leaving `client = None`. -/
def mkProcessor (api_key : String) (initOk : Bool) : ClientState :=
  if LLMConfig.enabled api_key then { enabled := true, clientOk := initOk }
  else { enabled := false, clientOk := false }

/-- `LLMProcessor.is_available` (`llm_processor.py` lines 66-68). -/
def is_available (s : ClientState) : Bool :=
  s.enabled && s.clientOk

/-- The response body handed to `json.loads`: either text the JSON parser
rejects (raising `JSONDecodeError`), or text parsing to a JSON object with
string-valued fields (the only shape the prompt requests and the code
consumes). `raw` is the literal body stored in `raw_response`. -/
inductive Body where
  | invalid (raw : String)
  | obj (fields : List (String × String)) (raw : String)
  deriving DecidableEq, Repr, Inhabited

/-- The raw text of a body. -/
def Body.raw : Body → String
  | .invalid r => r
  | .obj _ r => r

/-- `json.loads` on a body: `none` models `JSONDecodeError`. -/
def decodeBody : Body → Option (List (String × String))
  | .invalid _ => none
  | .obj fields _ => some fields

/-- Python `dict.get(key, default)` on the parsed JSON object. -/
def dictGet (fields : List (String × String)) (key dflt : String) : String :=
  match fields with
  | [] => dflt
  | (k, v) :: rest => if k = key then v else dictGet rest key dflt

/-- Outcome of one `chat.completions.create` call, mirroring the exception
taxonomy of `llm_processor.py` lines 148-164: a body to parse, or one of
the caught upstream exception classes. -/
inductive TransportOutcome where
  | ok (body : Body)
  | rateLimit
  | connError
  | apiError (msg : String)
  | otherError (msg : String)
  deriving DecidableEq, Repr, Inhabited

/-- The distinguishable log line each branch of `analyze_request` prints;
`quiet` is the no-log path (precondition short-circuits and success). -/
inductive LogSignal where
  | quiet
  | invalidJSON
  | rateLimited
  | connectionError
  | apiErrorSig
  | unexpectedError
  deriving DecidableEq, Repr, Inhabited

/-- The `try`/`except` body of `analyze_request` (`llm_processor.py` lines
91-164): one transport call, JSON parsing of the body with
`result.get`-defaults, and the exception handlers, each of which logs its
own signal and returns `None`. -/
def attemptAnalysis (elapsed : Nat) (outcome : TransportOutcome) :
    Option LLMAnalysis × LogSignal × Nat :=
  match outcome with
  | .ok body =>
      match decodeBody body with
      | none => (none, .invalidJSON, 1)
      | some fields =>
          (some { priority := pyLower (dictGet fields "priority" "medium")
                  summary := dictGet fields "summary" ""
                  recommendation := dictGet fields "recommendation" ""
                  raw_response := body.raw
                  processing_time := elapsed },
           .quiet, 1)
  | .rateLimit => (none, .rateLimited, 1)
  | .connError => (none, .connectionError, 1)
  | .apiError _ => (none, .apiErrorSig, 1)
  | .otherError _ => (none, .unexpectedError, 1)

/-- `LLMProcessor.analyze_request` (`llm_processor.py` lines 70-164).
Inputs beyond the Python signature make the effects explicit: `elapsed`
is the wall-clock time the transport call takes, `outcome` the result of
the single `chat.completions.create` call. Returns the `Optional[LLMAnalysis]`
value, the log signal emitted, and the number of transport calls made. -/
def analyze_request (s : ClientState) (description : String) (elapsed : Nat)
    (outcome : TransportOutcome) : Option LLMAnalysis × LogSignal × Nat :=
  if !is_available s then (none, .quiet, 0)
  else if description = "" ∨ (pyStrip description).length < 5 then (none, .quiet, 0)
  else attemptAnalysis elapsed outcome

/-- The loop of `analyze_multiple_requests` (`llm_processor.py` lines
190-206), with the per-call outcome of `analyze_request` abstracted into
`results : Nat → Option LLMAnalysis` (index = the 1-based loop counter
`i` of `enumerate(requests, 1)`). Returns the post-state of the
in-place-mutated input list and the accumulated `analyzed_requests`. -/
def processRequests (results : Nat → Option LLMAnalysis) (i : Nat)
    (requests : List RequestData) : List RequestData × List RequestData :=
  match requests with
  | [] => ([], [])
  | r :: rest =>
      match results i with
      | some a =>
          let r' := { r with llm_analysis := some a }
          let (post, out) := processRequests results (i + 1) rest
          (r' :: post, r' :: out)
      | none =>
          let r' := { r with llm_analysis := none }
          let (post, out) := processRequests results (i + 1) rest
          (r' :: post, out)

/-- `LLMProcessor.analyze_multiple_requests` (`llm_processor.py` lines
166-212). First component: the input records after the in-place
`request["llm_analysis"] = ...` mutations; second component: the returned
`analyzed_requests` list. When the client is unavailable or the input is
empty, the method returns `[]` without touching the records. -/
def analyze_multiple_requests (s : ClientState) (results : Nat → Option LLMAnalysis)
    (requests : List RequestData) : List RequestData × List RequestData :=
  if !is_available s then (requests, [])
  else if requests.isEmpty then (requests, [])
  else processRequests results 1 requests

/-- Specification view of the loop's in-place mutation: record `j` of the
input (0-based) ends up carrying `llm_analysis = results (i + j)` where `i`
is the starting loop counter. -/
def annotate (results : Nat → Option LLMAnalysis) (i : Nat) :
    List RequestData → List RequestData
  | [] => []
  | r :: rest => { r with llm_analysis := results i } :: annotate results (i + 1) rest

/-! ## Concrete inputs used by the spec's scenarios and by witnesses -/

/-- The concrete sheet of the spec's scenario: a header row and three data
rows with 1-based ids, dates, categories and a free-text column. -/
def exampleSheet : List (List Cell) :=
  [[.cstr "№", .cstr "Дата", .cstr "Категория", .cstr "Описание"],
   [.cint 1, .cstr "2024-01-01", .cstr "Billing", .cstr "App crashes on login"],
   [.cint 2, .cstr "2024-01-02", .cstr "Billing", .cstr ""],
   [.cint 3, .cstr "2024-01-03", .cstr "Support", .cstr "Slow response"]]

/-- A fixed successful analysis value for batch scenarios. -/
def sampleAnalysis : LLMAnalysis :=
  { priority := "high", summary := "s", recommendation := "r",
    raw_response := "raw", processing_time := 1 }

/-- A three-record batch (sheet rows 2, 3 and 5). -/
def sampleBatch : List RequestData :=
  [{ row_number := 2, id := .cstr "1", date := .cstr "d", category := .cstr "Billing",
     choice := .cstr "", description := .cstr "first description", llm_analysis := none },
   { row_number := 3, id := .cstr "2", date := .cstr "d", category := .cstr "Support",
     choice := .cstr "", description := .cstr "second description", llm_analysis := none },
   { row_number := 5, id := .cstr "4", date := .cstr "d", category := .cstr "Billing",
     choice := .cstr "", description := .cstr "third description", llm_analysis := none }]

/-- Per-call outcomes where the second call fails and the others succeed. -/
def sampleResults (i : Nat) : Option LLMAnalysis :=
  if i = 2 then none else some sampleAnalysis

/-- Per-call outcomes where every call succeeds. -/
def allOkResults (_ : Nat) : Option LLMAnalysis :=
  some sampleAnalysis

/-! ## Helper lemmas -/

theorem sumSnd_countInsert (acc : List (String × Nat)) (c : String) :
    sumSnd (countInsert acc c) = sumSnd acc + 1 := by
  induction acc with
  | nil => simp [countInsert, sumSnd]
  | cons p rest ih =>
      obtain ⟨k, n⟩ := p
      by_cases h : k = c <;> simp [countInsert, h, sumSnd] at ih ⊢ <;> omega

theorem sumSnd_counter (categories : List String) :
    sumSnd (counter categories) = categories.length := by
  suffices h : ∀ acc, sumSnd (categories.foldl countInsert acc)
      = sumSnd acc + categories.length by
    simpa [counter, sumSnd] using h []
  induction categories with
  | nil => simp
  | cons c rest ih =>
      intro acc
      simp only [List.foldl_cons, ih, sumSnd_countInsert, List.length_cons]
      omega

theorem counter_ne_nil (c : String) (categories : List String) :
    counter (c :: categories) ≠ [] := by
  have h : ∀ (cs : List String) (acc : List (String × Nat)),
      acc ≠ [] → cs.foldl countInsert acc ≠ [] := by
    intro cs
    induction cs with
    | nil => intro acc hacc; simpa using hacc
    | cons d rest ih =>
        intro acc hacc
        simp only [List.foldl_cons]
        apply ih
        match acc, hacc with
        | (k, n) :: acc', _ =>
            by_cases h : k = d <;> simp [countInsert, h]
  simpa [counter, countInsert] using h categories [(c, 1)]

theorem pickBest_snd (p q : String × Nat) : (pickBest p q).2 = max p.2 q.2 := by
  unfold pickBest
  split <;> omega

theorem foldl_pickBest_snd (ps : List (String × Nat)) (p : String × Nat) :
    (ps.foldl pickBest p).2 = ps.foldl (fun m q => max m q.2) p.2 := by
  induction ps generalizing p with
  | nil => rfl
  | cons q ps ih => simp [List.foldl_cons, ih, pickBest_snd]

theorem le_foldl_max (ps : List (String × Nat)) (m : Nat) :
    m ≤ ps.foldl (fun m q => max m q.2) m := by
  induction ps generalizing m with
  | nil => simp
  | cons q ps ih =>
      calc m ≤ max m q.2 := Nat.le_max_left _ _
        _ ≤ _ := ih (max m q.2)

theorem maxSnd_cons (p : String × Nat) (ps : List (String × Nat)) :
    maxSnd (p :: ps) = ps.foldl (fun m q => max m q.2) p.2 := by
  simp [maxSnd, List.foldl_cons, Nat.zero_max]

theorem mostCommon_snd_eq_maxSnd (p : String × Nat) (ps : List (String × Nat)) :
    (mostCommon (p :: ps)).2 = maxSnd (p :: ps) := by
  simp [mostCommon, foldl_pickBest_snd, maxSnd_cons]

theorem mostCommon_first_max (ps : List (String × Nat)) (p : String × Nat) :
    ∃ l₁ l₂, p :: ps = l₁ ++ mostCommon (p :: ps) :: l₂
      ∧ ∀ q ∈ l₁, q.2 < (mostCommon (p :: ps)).2 := by
  simp only [mostCommon]
  induction ps generalizing p with
  | nil => exact ⟨[], [], rfl, by simp⟩
  | cons q ps ih =>
      simp only [List.foldl_cons]
      by_cases hpq : p.2 < q.2
      · have hq : pickBest p q = q := by simp [pickBest, hpq]
        rw [hq]
        obtain ⟨l₁, l₂, hdec, hlt⟩ := ih q
        refine ⟨p :: l₁, l₂, by rw [List.cons_append, ← hdec], ?_⟩
        intro r hr
        rcases List.mem_cons.1 hr with h | h
        · subst h
          have h1 : (ps.foldl pickBest q).2
              = ps.foldl (fun m x => max m x.2) q.2 :=
            foldl_pickBest_snd _ _
          have h2 : q.2 ≤ (ps.foldl pickBest q).2 := by
            rw [h1]; exact le_foldl_max _ _
          omega
        · exact hlt r h
      · have hbest : pickBest p q = p := by simp [pickBest, hpq]
        rw [hbest]
        obtain ⟨l₁, l₂, hdec, hlt⟩ := ih p
        cases l₁ with
        | nil =>
            simp only [List.nil_append] at hdec
            have hp : ps.foldl pickBest p = p := ((List.cons_eq_cons.1 hdec).1).symm
            exact ⟨[], q :: ps, by simp [hp], by simp⟩
        | cons r l₁' =>
            have hr : p = r := (List.cons_eq_cons.1 hdec).1
            have hps : ps = l₁' ++ ps.foldl pickBest p :: l₂ :=
              (List.cons_eq_cons.1 hdec).2
            have hplt : p.2 < (ps.foldl pickBest p).2 := by
              nth_rewrite 1 [hr]
              exact hlt r (List.mem_cons_self r l₁')
            refine ⟨p :: q :: l₁', l₂, ?_, ?_⟩
            · conv_lhs => rw [hps]
              simp
            · intro x hx
              rcases List.mem_cons.1 hx with h | h
              · subst h; exact hplt
              · rcases List.mem_cons.1 h with h' | h'
                · subst h'; omega
                · exact hlt x (List.mem_cons_of_mem r h')

theorem is_available_mkProcessor (api_key : String) (initOk : Bool) :
    is_available (mkProcessor api_key initOk)
      = (LLMConfig.enabled api_key && initOk) := by
  unfold mkProcessor is_available
  split <;> simp_all

theorem analyze_request_main (s : ClientState) (description : String)
    (elapsed : Nat) (outcome : TransportOutcome) (hav : is_available s = true)
    (hne : ¬(description = "" ∨ (pyStrip description).length < 5)) :
    analyze_request s description elapsed outcome
      = attemptAnalysis elapsed outcome := by
  unfold analyze_request
  rw [hav]
  rw [if_neg (by simp), if_neg hne]

theorem processRequests_fst (results : Nat → Option LLMAnalysis) (i : Nat)
    (rs : List RequestData) :
    (processRequests results i rs).1 = annotate results i rs := by
  induction rs generalizing i with
  | nil => rfl
  | cons r rest ih =>
      cases h : results i <;> simp [processRequests, annotate, h, ih]

theorem processRequests_snd (results : Nat → Option LLMAnalysis) (i : Nat)
    (rs : List RequestData) :
    (processRequests results i rs).2
      = (annotate results i rs).filter (fun r => r.llm_analysis.isSome) := by
  induction rs generalizing i with
  | nil => rfl
  | cons r rest ih =>
      cases h : results i <;>
        simp [processRequests, annotate, h, ih, List.filter_cons]

theorem annotate_length (results : Nat → Option LLMAnalysis) (i : Nat)
    (rs : List RequestData) : (annotate results i rs).length = rs.length := by
  induction rs generalizing i with
  | nil => rfl
  | cons r rest ih => simp [annotate, ih]

theorem annotate_getElem? (results : Nat → Option LLMAnalysis) (i : Nat)
    (rs : List RequestData) (j : Nat) :
    (annotate results i rs)[j]?
      = (rs[j]?).map (fun r => { r with llm_analysis := results (i + j) }) := by
  induction rs generalizing i j with
  | nil => simp [annotate]
  | cons r rest ih =>
      cases j with
      | zero => simp [annotate]
      | succ j =>
          have harith : i + 1 + j = i + (j + 1) := by omega
          simp [annotate, ih (i + 1) j, harith]

theorem annotate_map_row_number (results : Nat → Option LLMAnalysis) (i : Nat)
    (rs : List RequestData) :
    (annotate results i rs).map (fun r => r.row_number)
      = rs.map (fun r => r.row_number) := by
  induction rs generalizing i with
  | nil => rfl
  | cons r rest ih => simp [annotate, ih]

theorem annotate_filter_all_some (results : Nat → Option LLMAnalysis) (i : Nat)
    (rs : List RequestData)
    (h : ∀ j, j < rs.length → (results (i + j)).isSome = true) :
    (annotate results i rs).filter (fun r => r.llm_analysis.isSome)
      = annotate results i rs := by
  induction rs generalizing i with
  | nil => rfl
  | cons r rest ih =>
      have h0 : (results i).isSome = true := by simpa using h 0 (by simp)
      have htail : ∀ j, j < rest.length → (results (i + 1 + j)).isSome = true := by
        intro j hj
        have harith : i + 1 + j = i + (j + 1) := by omega
        rw [harith]
        exact h (j + 1) (by simpa using Nat.succ_lt_succ hj)
      simp [annotate, List.filter_cons, h0, ih (i + 1) htail]

theorem analyze_multiple_requests_eq (s : ClientState)
    (results : Nat → Option LLMAnalysis) (rs : List RequestData)
    (hav : is_available s = true) :
    analyze_multiple_requests s results rs
      = (annotate results 1 rs,
         (annotate results 1 rs).filter (fun r => r.llm_analysis.isSome)) := by
  unfold analyze_multiple_requests
  rw [hav]
  by_cases h : rs.isEmpty
  · have : rs = [] := List.isEmpty_iff.1 h
    subst this
    simp [annotate]
  · simp only [Bool.not_true, if_false, h]
    have heta : processRequests results 1 rs
        = ((processRequests results 1 rs).1, (processRequests results 1 rs).2) := rfl
    rw [heta, processRequests_fst, processRequests_snd]
    simp

/-! ## Claim theorems -/

/-- C6: for every input with at most one row (header only, or nothing),
`DataAnalyzer.analyze` returns the zero-valued result — `total_requests = 0`,
empty category map, empty most-common fields — and, being a total function,
never fails. -/
theorem claim_analyze_empty_input (categoryColumn : Nat) (data : List (List Cell))
    (h : data.length ≤ 1) :
    analyze categoryColumn data
      = { total_requests := 0, total_rows := data.length, category_counts := [],
          most_common_category := "", most_common_count := 0, raw_data := data } := by
  simp [analyze, h, emptyResult]

/-- Witness for C6 at the header-only input. -/
theorem claim_analyze_empty_input_witness :
    ([[Cell.cstr "hdr"]] : List (List Cell)).length ≤ 1
    ∧ analyze 3 [[Cell.cstr "hdr"]]
      = { total_requests := 0, total_rows := ([[Cell.cstr "hdr"]] : List (List Cell)).length,
          category_counts := [], most_common_category := "", most_common_count := 0,
          raw_data := [[Cell.cstr "hdr"]] } :=
  ⟨by decide, claim_analyze_empty_input 3 [[Cell.cstr "hdr"]] (by decide)⟩

/-- C4 (amended): the category counts always sum to `total_requests`, and
`total_requests ≤ total_rows - 1` holds over the integers whenever the
input is non-empty; the empty input is excluded because there
`total_rows = 0` makes the right-hand side negative. -/
theorem claim_analyze_sum_and_bound (categoryColumn : Nat) (data : List (List Cell)) :
    sumSnd (analyze categoryColumn data).category_counts
        = (analyze categoryColumn data).total_requests
    ∧ (data ≠ [] →
        ((analyze categoryColumn data).total_requests : Int)
          ≤ ((analyze categoryColumn data).total_rows : Int) - 1) := by
  by_cases h1 : data.length ≤ 1
  · refine ⟨by simp [analyze, h1, emptyResult, sumSnd], ?_⟩
    intro hne
    have hpos : 0 < data.length := List.length_pos.2 hne
    simp [analyze, h1, emptyResult]
    omega
  · by_cases h2 : (extractCategories categoryColumn data.tail).isEmpty
    · refine ⟨by simp [analyze, h1, h2, emptyResult, sumSnd], ?_⟩
      intro _
      simp [analyze, h1, h2, emptyResult]
      omega
    · have hsum := sumSnd_counter (extractCategories categoryColumn data.tail)
      have hlen : (extractCategories categoryColumn data.tail).length
          ≤ data.tail.length := List.length_filterMap_le _ _
      have htail : data.tail.length = data.length - 1 := List.length_tail data
      refine ⟨?_, ?_⟩
      · simp [analyze, h1, h2, hsum]
      · intro _
        simp [analyze, h1, h2]
        omega

/-- Witness for C4 at a two-row input (header plus one categorized row). -/
theorem claim_analyze_sum_and_bound_witness :
    ([[Cell.cstr "h"], [Cell.cstr "1", Cell.cstr "d", Cell.cstr "Cat"]] : List (List Cell)) ≠ []
    ∧ sumSnd (analyze 3 [[Cell.cstr "h"], [Cell.cstr "1", Cell.cstr "d", Cell.cstr "Cat"]]).category_counts
        = (analyze 3 [[Cell.cstr "h"], [Cell.cstr "1", Cell.cstr "d", Cell.cstr "Cat"]]).total_requests
    ∧ ((analyze 3 [[Cell.cstr "h"], [Cell.cstr "1", Cell.cstr "d", Cell.cstr "Cat"]]).total_requests : Int)
        ≤ ((analyze 3 [[Cell.cstr "h"], [Cell.cstr "1", Cell.cstr "d", Cell.cstr "Cat"]]).total_rows : Int) - 1 :=
  ⟨by decide,
   (claim_analyze_sum_and_bound 3 [[Cell.cstr "h"], [Cell.cstr "1", Cell.cstr "d", Cell.cstr "Cat"]]).1,
   (claim_analyze_sum_and_bound 3 [[Cell.cstr "h"], [Cell.cstr "1", Cell.cstr "d", Cell.cstr "Cat"]]).2
     (by decide)⟩

/-- C4 counterexample: on the empty row set, `analyze` yields
`total_requests = 0` and `total_rows = 0`, so the claimed bound
`total_requests ≤ total_rows - 1` fails over the integers. -/
theorem claim_analyze_bound_empty_cex :
    ¬ (((analyze 3 ([] : List (List Cell))).total_requests : Int)
        ≤ ((analyze 3 ([] : List (List Cell))).total_rows : Int) - 1) := by
  decide

/-- C3 counterexample: on the spec's concrete sheet the candidate list of
`get_requests_for_llm` is not rows 2 and 4 — the description is read from
the fifth column (`row[4]`), which the four-cell rows do not have, so every
row is excluded. -/
theorem claim_example_candidates_cex :
    (get_requests_for_llm exampleSheet).map (fun r => r.row_number) ≠ [2, 4] := by
  decide

/-- C3 (amended): on the concrete sheet, `analyze` with `category_column = 3`
returns `total_requests = 3`, counts `Billing ↦ 2, Support ↦ 1`, most
common category `Billing` with count 2 — but the enrichment candidate list
of `get_requests_for_llm` is empty, because the free-text column it reads
(`row[4]`, the fifth column) is absent from all three four-cell rows. -/
theorem claim_example_scenario :
    analyze 3 exampleSheet
      = { total_requests := 3, total_rows := 4,
          category_counts := [("Billing", 2), ("Support", 1)],
          most_common_category := "Billing", most_common_count := 2,
          raw_data := exampleSheet }
    ∧ get_requests_for_llm exampleSheet = [] := by
  exact ⟨by decide, by decide⟩

/-- C5: whenever the category counts are non-empty, `most_common_count` is
the maximum of the counts, and the most-common pair is the first entry in
insertion (first-encountered) order attaining that maximum: every earlier
entry of `category_counts` has a strictly smaller count. -/
theorem claim_analyze_most_common (categoryColumn : Nat) (data : List (List Cell))
    (h : (analyze categoryColumn data).category_counts ≠ []) :
    (analyze categoryColumn data).most_common_count
        = maxSnd (analyze categoryColumn data).category_counts
    ∧ ∃ l₁ l₂,
        (analyze categoryColumn data).category_counts
          = l₁ ++ ((analyze categoryColumn data).most_common_category,
                   (analyze categoryColumn data).most_common_count) :: l₂
        ∧ ∀ q ∈ l₁, q.2 < (analyze categoryColumn data).most_common_count := by
  by_cases h1 : data.length ≤ 1
  · exact absurd (by simp [analyze, h1, emptyResult]) h
  by_cases h2 : (extractCategories categoryColumn data.tail).isEmpty
  · exact absurd (by simp [analyze, h1, h2, emptyResult]) h
  have hcounts : (analyze categoryColumn data).category_counts
      = counter (extractCategories categoryColumn data.tail) := by
    simp [analyze, h1, h2]
  have hcat : (analyze categoryColumn data).most_common_category
      = (mostCommon (counter (extractCategories categoryColumn data.tail))).1 := by
    simp [analyze, h1, h2]
  have hcnt : (analyze categoryColumn data).most_common_count
      = (mostCommon (counter (extractCategories categoryColumn data.tail))).2 := by
    simp [analyze, h1, h2]
  rw [hcounts] at h
  rw [hcounts, hcat, hcnt]
  cases hc : counter (extractCategories categoryColumn data.tail) with
  | nil => exact absurd hc h
  | cons p ps =>
      refine ⟨mostCommon_snd_eq_maxSnd p ps, ?_⟩
      have hdec := mostCommon_first_max ps p
      simpa using hdec

/-- Witness for C5 at a sheet whose counts are `A ↦ 2, B ↦ 1`. -/
theorem claim_analyze_most_common_witness :
    (analyze 3 [[Cell.cstr "h"],
        [Cell.cstr "1", Cell.cstr "d", Cell.cstr "A"],
        [Cell.cstr "2", Cell.cstr "d", Cell.cstr "B"],
        [Cell.cstr "3", Cell.cstr "d", Cell.cstr "A"]]).category_counts ≠ []
    ∧ ((analyze 3 [[Cell.cstr "h"],
        [Cell.cstr "1", Cell.cstr "d", Cell.cstr "A"],
        [Cell.cstr "2", Cell.cstr "d", Cell.cstr "B"],
        [Cell.cstr "3", Cell.cstr "d", Cell.cstr "A"]]).most_common_count
        = maxSnd (analyze 3 [[Cell.cstr "h"],
            [Cell.cstr "1", Cell.cstr "d", Cell.cstr "A"],
            [Cell.cstr "2", Cell.cstr "d", Cell.cstr "B"],
            [Cell.cstr "3", Cell.cstr "d", Cell.cstr "A"]]).category_counts
      ∧ ∃ l₁ l₂,
          (analyze 3 [[Cell.cstr "h"],
              [Cell.cstr "1", Cell.cstr "d", Cell.cstr "A"],
              [Cell.cstr "2", Cell.cstr "d", Cell.cstr "B"],
              [Cell.cstr "3", Cell.cstr "d", Cell.cstr "A"]]).category_counts
            = l₁ ++ ((analyze 3 [[Cell.cstr "h"],
                  [Cell.cstr "1", Cell.cstr "d", Cell.cstr "A"],
                  [Cell.cstr "2", Cell.cstr "d", Cell.cstr "B"],
                  [Cell.cstr "3", Cell.cstr "d", Cell.cstr "A"]]).most_common_category,
                (analyze 3 [[Cell.cstr "h"],
                  [Cell.cstr "1", Cell.cstr "d", Cell.cstr "A"],
                  [Cell.cstr "2", Cell.cstr "d", Cell.cstr "B"],
                  [Cell.cstr "3", Cell.cstr "d", Cell.cstr "A"]]).most_common_count) :: l₂
          ∧ ∀ q ∈ l₁, q.2 < (analyze 3 [[Cell.cstr "h"],
              [Cell.cstr "1", Cell.cstr "d", Cell.cstr "A"],
              [Cell.cstr "2", Cell.cstr "d", Cell.cstr "B"],
              [Cell.cstr "3", Cell.cstr "d", Cell.cstr "A"]]).most_common_count) :=
  ⟨by decide,
   claim_analyze_most_common 3 [[Cell.cstr "h"],
      [Cell.cstr "1", Cell.cstr "d", Cell.cstr "A"],
      [Cell.cstr "2", Cell.cstr "d", Cell.cstr "B"],
      [Cell.cstr "3", Cell.cstr "d", Cell.cstr "A"]] (by decide)⟩

/-- C7: when the client is unavailable (empty API key, placeholder key, or
failed client initialization) or the stripped description is shorter than
5 characters, `analyze_request` returns `None` quietly, as a total function
(no exception), and performs zero transport calls. -/
theorem claim_analyze_request_preconditions (api_key : String) (initOk : Bool)
    (description : String) (elapsed : Nat) (outcome : TransportOutcome)
    (h : api_key = "" ∨ containsSub api_key "ваш_api_ключ" = true ∨ initOk = false
         ∨ (pyStrip description).length < 5) :
    analyze_request (mkProcessor api_key initOk) description elapsed outcome
      = (none, LogSignal.quiet, 0) := by
  by_cases hav : is_available (mkProcessor api_key initOk) = true
  · have hen : LLMConfig.enabled api_key = true ∧ initOk = true := by
      rw [is_available_mkProcessor] at hav
      simpa using hav
    have hkey : api_key ≠ "" ∧ containsSub api_key "ваш_api_ключ" = false := by
      have h' := hen.1
      unfold LLMConfig.enabled at h'
      simpa using h'
    have hlen : (pyStrip description).length < 5 := by
      rcases h with h | h | h | h
      · exact absurd h hkey.1
      · rw [hkey.2] at h
        exact absurd h (by simp)
      · rw [hen.2] at h
        exact absurd h (by simp)
      · exact h
    unfold analyze_request
    rw [hav]
    rw [if_neg (by simp), if_pos (Or.inr hlen)]
  · have hav' : is_available (mkProcessor api_key initOk) = false := by
      simpa using hav
    unfold analyze_request
    rw [hav']
    rw [if_pos (by simp)]

/-- Witness for C7: a client with a real key but a too-short description
(`"ok"`, stripped length 2) returns `None` with zero transport calls. -/
theorem claim_analyze_request_preconditions_witness :
    (pyStrip "ok").length < 5
    ∧ analyze_request (mkProcessor "sk-test" true) "ok" 3 TransportOutcome.rateLimit
        = (none, LogSignal.quiet, 0) :=
  ⟨by decide,
   claim_analyze_request_preconditions "sk-test" true "ok" 3 .rateLimit
     (Or.inr (Or.inr (Or.inr (by decide))))⟩

/-- C8: with an available client and a long-enough description, every
upstream failure — a body the JSON parser rejects, a rate-limit signal, a
connection failure, another API error, or any other unexpected exception —
yields `None` together with a per-category log signal; `analyze_request`
is total (no upstream exception escapes to the caller), and the five
failure signals are pairwise distinct. -/
theorem claim_analyze_request_failure_taxonomy (s : ClientState)
    (description : String) (elapsed : Nat) (hav : is_available s = true)
    (hlen : 5 ≤ (pyStrip description).length) :
    (∀ raw, analyze_request s description elapsed (.ok (.invalid raw))
        = (none, .invalidJSON, 1))
    ∧ analyze_request s description elapsed .rateLimit = (none, .rateLimited, 1)
    ∧ analyze_request s description elapsed .connError = (none, .connectionError, 1)
    ∧ (∀ msg, analyze_request s description elapsed (.apiError msg)
        = (none, .apiErrorSig, 1))
    ∧ (∀ msg, analyze_request s description elapsed (.otherError msg)
        = (none, .unexpectedError, 1))
    ∧ List.Pairwise (· ≠ ·)
        [LogSignal.invalidJSON, .rateLimited, .connectionError,
         .apiErrorSig, .unexpectedError] := by
  have hne : ¬(description = "" ∨ (pyStrip description).length < 5) := by
    rintro (h | h)
    · rw [h] at hlen
      have h0 : (pyStrip "").length = 0 := by decide
      omega
    · omega
  refine ⟨?_, ?_, ?_, ?_, ?_, by decide⟩
  · intro raw
    rw [analyze_request_main s description elapsed _ hav hne]
    rfl
  · rw [analyze_request_main s description elapsed _ hav hne]
    rfl
  · rw [analyze_request_main s description elapsed _ hav hne]
    rfl
  · intro msg
    rw [analyze_request_main s description elapsed _ hav hne]
    rfl
  · intro msg
    rw [analyze_request_main s description elapsed _ hav hne]
    rfl

/-- Witness for C8 at a live client and the rate-limit outcome. -/
theorem claim_analyze_request_failure_taxonomy_witness :
    is_available { enabled := true, clientOk := true } = true
    ∧ 5 ≤ (pyStrip "hello world").length
    ∧ analyze_request { enabled := true, clientOk := true } "hello world" 0
        .rateLimit = (none, .rateLimited, 1) :=
  ⟨by decide, by decide,
   (claim_analyze_request_failure_taxonomy { enabled := true, clientOk := true }
      "hello world" 0 (by decide) (by decide)).2.1⟩

/-- C9 counterexample: with an available client and a valid description, a
JSON body that is an object with no keys at all does not trigger the
invalid-response failure path — `analyze_request` returns a successful
analysis with default values, no `invalidJSON` signal and a non-null
result. -/
theorem claim_missing_keys_cex :
    (analyze_request { enabled := true, clientOk := true } "App crashes on login" 7
        (.ok (.obj [] "\x7b\x7d"))).1
      = some { priority := "medium", summary := "", recommendation := "",
               raw_response := "\x7b\x7d", processing_time := 7 }
    ∧ (analyze_request { enabled := true, clientOk := true } "App crashes on login" 7
        (.ok (.obj [] "\x7b\x7d"))).2.1 ≠ LogSignal.invalidJSON
    ∧ (analyze_request { enabled := true, clientOk := true } "App crashes on login" 7
        (.ok (.obj [] "\x7b\x7d"))).1 ≠ none := by
  refine ⟨by decide, by decide, by decide⟩

/-- C9 (amended): a body the JSON parser rejects triggers the
invalid-response failure path (`None` plus the `invalidJSON` signal), while
a JSON object body — keys present or missing — succeeds, with missing keys
defaulting to `"medium"` for priority and the empty string for summary and
recommendation. -/
theorem claim_analyze_request_response_parsing (s : ClientState)
    (description : String) (elapsed : Nat) (hav : is_available s = true)
    (hlen : 5 ≤ (pyStrip description).length) :
    (∀ raw, analyze_request s description elapsed (.ok (.invalid raw))
        = (none, .invalidJSON, 1))
    ∧ (∀ fields raw, analyze_request s description elapsed (.ok (.obj fields raw))
        = (some { priority := pyLower (dictGet fields "priority" "medium")
                  summary := dictGet fields "summary" ""
                  recommendation := dictGet fields "recommendation" ""
                  raw_response := raw
                  processing_time := elapsed }, .quiet, 1))
    ∧ (∀ raw, analyze_request s description elapsed (.ok (.obj [] raw))
        = (some { priority := "medium", summary := "", recommendation := "",
                  raw_response := raw, processing_time := elapsed }, .quiet, 1)) := by
  have hne : ¬(description = "" ∨ (pyStrip description).length < 5) := by
    rintro (h | h)
    · rw [h] at hlen
      have h0 : (pyStrip "").length = 0 := by decide
      omega
    · omega
  refine ⟨?_, ?_, ?_⟩
  · intro raw
    rw [analyze_request_main s description elapsed _ hav hne]
    rfl
  · intro fields raw
    rw [analyze_request_main s description elapsed _ hav hne]
    rfl
  · intro raw
    rw [analyze_request_main s description elapsed _ hav hne]
    rfl

/-- Witness for C9's amended theorem: the empty-object body yields the
all-defaults analysis. -/
theorem claim_analyze_request_response_parsing_witness :
    is_available { enabled := true, clientOk := true } = true
    ∧ 5 ≤ (pyStrip "hello world").length
    ∧ analyze_request { enabled := true, clientOk := true } "hello world" 4
        (.ok (.obj [] "x"))
      = (some { priority := "medium", summary := "", recommendation := "",
                raw_response := "x", processing_time := 4 }, .quiet, 1) :=
  ⟨by decide, by decide,
   (claim_analyze_request_response_parsing { enabled := true, clientOk := true }
      "hello world" 4 (by decide) (by decide)).2.2 "x"⟩

/-- C1: with an available client, a per-item failure (the client returns
no result for item `i`, 0-based) does not abort the batch: item `i`'s
record is annotated in place with a null analysis, every item — including
all subsequent ones — is still processed (the post-state covers the whole
input), and every item whose call succeeds is present in the returned list
carrying its correct analysis. -/
theorem claim_batch_partial_failure (s : ClientState)
    (results : Nat → Option LLMAnalysis) (requests : List RequestData) (i : Nat)
    (hav : is_available s = true) (hi : i < requests.length)
    (hfail : results (i + 1) = none) :
    ((analyze_multiple_requests s results requests).1.map
        (fun r => r.llm_analysis))[i]? = some none
    ∧ (analyze_multiple_requests s results requests).1.length = requests.length
    ∧ ∀ j a, ∀ hj : j < requests.length, results (j + 1) = some a →
        { requests.get ⟨j, hj⟩ with llm_analysis := some a }
          ∈ (analyze_multiple_requests s results requests).2 := by
  rw [analyze_multiple_requests_eq s results requests hav]
  refine ⟨?_, ?_, ?_⟩
  · rw [List.getElem?_map, annotate_getElem?, List.getElem?_eq_getElem hi]
    simp [Nat.add_comm 1 i, hfail]
  · simp [annotate_length]
  · intro j a hj hsucc
    have h1 : (annotate results 1 requests)[j]?
        = some { requests.get ⟨j, hj⟩ with llm_analysis := some a } := by
      rw [annotate_getElem?, List.getElem?_eq_getElem hj]
      simp [Nat.add_comm 1 j, hsucc]
    have hmem : { requests.get ⟨j, hj⟩ with llm_analysis := some a }
        ∈ annotate results 1 requests := List.getElem?_mem h1
    exact List.mem_filter.2 ⟨hmem, by simp⟩

/-- Witness for C1: in a three-record batch where only the second call
fails, the post-state annotates record 1 (0-based) with a null analysis. -/
theorem claim_batch_partial_failure_witness :
    is_available { enabled := true, clientOk := true } = true
    ∧ (1 : Nat) < sampleBatch.length
    ∧ sampleResults 2 = none
    ∧ ((analyze_multiple_requests { enabled := true, clientOk := true }
          sampleResults sampleBatch).1.map (fun r => r.llm_analysis))[1]? = some none :=
  ⟨by decide, by decide, rfl,
   (claim_batch_partial_failure { enabled := true, clientOk := true }
      sampleResults sampleBatch 1 (by decide) (by decide) rfl).1⟩

/-- C2: with an available client the batch is processed sequentially in
input order — the returned row numbers are a sublist (subsequence in
order) of the input row numbers, and when every call succeeds the returned
row-number sequence equals the input row-number sequence. -/
theorem claim_batch_ordering (s : ClientState)
    (results : Nat → Option LLMAnalysis) (requests : List RequestData)
    (hav : is_available s = true) :
    List.Sublist
        ((analyze_multiple_requests s results requests).2.map (fun r => r.row_number))
        (requests.map (fun r => r.row_number))
    ∧ ((∀ j, j < requests.length → (results (j + 1)).isSome = true) →
        (analyze_multiple_requests s results requests).2.map (fun r => r.row_number)
          = requests.map (fun r => r.row_number)) := by
  rw [analyze_multiple_requests_eq s results requests hav]
  constructor
  · have h1 := (List.filter_sublist (p := fun r => r.llm_analysis.isSome)
      (annotate results 1 requests)).map (fun r => r.row_number)
    rw [annotate_map_row_number] at h1
    exact h1
  · intro hall
    have hall' : ∀ j, j < requests.length → (results (1 + j)).isSome = true := by
      intro j hj
      rw [Nat.add_comm]
      exact hall j hj
    rw [annotate_filter_all_some results 1 requests hall', annotate_map_row_number]

/-- Witness for C2: an all-success batch returns its row numbers in input
order. -/
theorem claim_batch_ordering_witness :
    is_available { enabled := true, clientOk := true } = true
    ∧ (∀ j, j < sampleBatch.length → (allOkResults (j + 1)).isSome = true)
    ∧ (analyze_multiple_requests { enabled := true, clientOk := true }
          allOkResults sampleBatch).2.map (fun r => r.row_number)
        = sampleBatch.map (fun r => r.row_number) :=
  ⟨by decide, fun _ _ => rfl,
   (claim_batch_ordering { enabled := true, clientOk := true }
      allOkResults sampleBatch (by decide)).2 (fun _ _ => rfl)⟩

/-- C10: with an available client, the post-state annotates every input
record in place with the outcome of its call (`None` on failure), and the
returned list is exactly the in-order filter of those records whose
analysis is non-null; hence its length equals the number of successes and
every returned record carries a non-null analysis. -/
theorem claim_batch_returns_successes (s : ClientState)
    (results : Nat → Option LLMAnalysis) (requests : List RequestData)
    (hav : is_available s = true) :
    (analyze_multiple_requests s results requests).1 = annotate results 1 requests
    ∧ (analyze_multiple_requests s results requests).2
        = (analyze_multiple_requests s results requests).1.filter
            (fun r => r.llm_analysis.isSome)
    ∧ (analyze_multiple_requests s results requests).2.length
        = (analyze_multiple_requests s results requests).1.countP
            (fun r => r.llm_analysis.isSome)
    ∧ ∀ r ∈ (analyze_multiple_requests s results requests).2,
        r.llm_analysis.isSome = true := by
  rw [analyze_multiple_requests_eq s results requests hav]
  refine ⟨rfl, rfl, ?_, ?_⟩
  · exact (List.countP_eq_length_filter _ _).symm
  · intro r hr
    exact (List.mem_filter.1 hr).2

/-- Witness for C10: in the one-failure batch the returned list is the
filter of the annotated post-state. -/
theorem claim_batch_returns_successes_witness :
    is_available { enabled := true, clientOk := true } = true
    ∧ (analyze_multiple_requests { enabled := true, clientOk := true }
          sampleResults sampleBatch).2
        = (analyze_multiple_requests { enabled := true, clientOk := true }
            sampleResults sampleBatch).1.filter (fun r => r.llm_analysis.isSome)
    ∧ (analyze_multiple_requests { enabled := true, clientOk := true }
          sampleResults sampleBatch).2.length = 2 :=
  ⟨by decide,
   (claim_batch_returns_successes { enabled := true, clientOk := true }
      sampleResults sampleBatch (by decide)).2.1,
   by decide⟩

end TgAnalytics
